import Mathlib

/-!
Verification development for the `zulip-hr-bot` repository
(`src/api/holidaybot.py` and `src/main.py`).

Embedding conventions:
* Python `datetime.date` values are embedded as their proleptic-Gregorian
  ordinals (`date.toordinal()`, an `Int`; `0001-01-01` has ordinal `1`).
  `date` arithmetic with `timedelta(days = n)` is integer addition, and
  `date.weekday()` is `(ordinal + 6) % 7` (Monday = 0), exactly as in the
  Python library.
* Python strings are embedded as `String` / `List Char`.  Keyword matching
  under `re.IGNORECASE` and `str.lower()` are modelled by ASCII
  case-folding (`Char.toLower`), which agrees with Python on every ASCII
  string.
* `datetime.strptime` for the five fixed formats of `DATE_FORMATS` is
  modelled by dedicated token parsers that follow CPython's `_strptime`
  regexes: `%d`/`%m` accept one or two digits (value-checked), `%y` exactly
  two digits with the 69-window century rule, `%Y`/`%b` exactly four digits
  / a three-letter month abbreviation, no unconverted trailing data, and
  the resulting triple is validated as a calendar date.
* Fallible Python code (raising / try-except) is embedded with
  `Option` / `Except`; the Postgres store is embedded as an explicit list
  of rows with the SQL of the two queries translated to list operations.
-/

/-! ### Character and string helpers -/

/-- Python `str.strip` whitespace class (ASCII part), also the `\s` class of
the command regexes for the inputs of interest. -/
def isPySpace (c : Char) : Bool :=
  c = ' ' || c = '\t' || c = '\n' || c = '\r' || c = '\x0b' || c = '\x0c'

/-- Python `str.strip()` on a character list. -/
def pyStrip (l : List Char) : List Char :=
  ((l.dropWhile isPySpace).reverse.dropWhile isPySpace).reverse

/-- Python `str.strip()` on a `String`. -/
def pyStripStr (s : String) : String :=
  String.mk (pyStrip s.data)

/-- Python `str.lower()` (ASCII case folding). -/
def lowerStr (s : String) : String :=
  String.mk (s.data.map Char.toLower)

def isDigitC (c : Char) : Bool :=
  '0' ≤ c && c ≤ '9'

def digitVal (c : Char) : Nat :=
  c.toNat - '0'.toNat

/-- The ASCII single-quote character (`'`). -/
def squote : Char := Char.ofNat 39

/-- Ordinal (code-point) comparison of character lists; the model of the
`ORDER BY ... user_name ASC` collation of the leave store. -/
def charsLe : List Char → List Char → Bool
  | [], _ => true
  | _ :: _, [] => false
  | a :: as, b :: bs =>
    if a.toNat < b.toNat then true
    else if b.toNat < a.toNat then false
    else charsLe as bs

/-! ### Calendar dates as Python ordinals -/

/-- Gregorian leap-year test (as used by `datetime.date`). -/
def isLeap (y : Int) : Bool :=
  y % 4 = 0 && (y % 100 ≠ 0 || y % 400 = 0)

/-- Length of month `m` of year `y` (as validated by the `datetime` constructor). -/
def daysInMonth (y : Int) (m : Nat) : Nat :=
  if m = 2 then (if isLeap y then 29 else 28)
  else if m = 4 || m = 6 || m = 9 || m = 11 then 30
  else 31

/-- `date(y, m, d).toordinal()`: days since 0000-12-31 in the proleptic
Gregorian calendar (`0001-01-01` ↦ `1`). -/
def dateOrd (y : Int) (m d : Nat) : Int :=
  let yAdj : Int := if m ≤ 2 then y - 1 else y
  let era : Int := (if 0 ≤ yAdj then yAdj else yAdj - 399) / 400
  let yoe : Int := yAdj - era * 400
  let mI : Int := (m : Int)
  let doy : Int := (153 * (if 2 < m then mI - 3 else mI + 9) + 2) / 5 + (d : Int) - 1
  let doe : Int := yoe * 365 + yoe / 4 - yoe / 100 + doy
  era * 146097 + doe - 305

/-- `date.fromordinal`: the `(year, month, day)` triple of an ordinal. -/
def ordToDate (ord : Int) : Int × Nat × Nat :=
  let z : Int := ord + 305
  let era : Int := (if 0 ≤ z then z else z - 146096) / 146097
  let doe : Int := z - era * 146097
  let yoe : Int := (doe - doe / 1460 + doe / 36524 - doe / 146096) / 365
  let y : Int := yoe + era * 400
  let doy : Int := doe - (365 * yoe + yoe / 4 - yoe / 100)
  let mp : Int := (5 * doy + 2) / 153
  let d : Int := doy - (153 * mp + 2) / 5 + 1
  let m : Int := if mp < 10 then mp + 3 else mp - 9
  ((if m ≤ 2 then y + 1 else y), m.toNat, d.toNat)

def pad2 (n : Nat) : String :=
  if n < 10 then "0" ++ toString n else toString n

def pad4 (n : Nat) : String :=
  if n < 10 then "000" ++ toString n
  else if n < 100 then "00" ++ toString n
  else if n < 1000 then "0" ++ toString n
  else toString n

/-- `date.isoformat()` / `str(date)`: `YYYY-MM-DD`. -/
def isoFormat (ord : Int) : String :=
  let ymd := ordToDate ord
  pad4 ymd.1.toNat ++ "-" ++ pad2 ymd.2.1 ++ "-" ++ pad2 ymd.2.2

/-- `date.weekday()`: Monday = 0 … Sunday = 6. -/
def pyWeekday (ord : Int) : Int :=
  (ord + 6) % 7

/-- `week_range(anchor)` (identical in both source files):
`start = anchor - timedelta(days=anchor.weekday()); end = start + timedelta(days=6)`. -/
def week_range (anchor : Int) : Int × Int :=
  let start := anchor - pyWeekday anchor
  (start, start + 6)

/-- Two dates lie in the same ISO week (Monday-aligned 7-day block; ordinal 1,
`0001-01-01`, is a Monday). -/
def sameISOWeek (a b : Int) : Prop :=
  (a - 1) / 7 = (b - 1) / 7

instance (a b : Int) : Decidable (sameISOWeek a b) := by
  unfold sameISOWeek
  infer_instance

/-! ### The five `strptime` formats of `DATE_FORMATS` -/

/-- `%d` of CPython `_strptime` (`3[01]|[12]\d|0[1-9]|[1-9]`): one or two
digits with value 1–31, preferring the two-digit reading. -/
def parseDay : List Char → Option (Nat × List Char)
  | c1 :: c2 :: rest =>
    if isDigitC c1 && isDigitC c2 then
      let v := digitVal c1 * 10 + digitVal c2
      if 1 ≤ v && v ≤ 31 then some (v, rest)
      else if 1 ≤ digitVal c1 then some (digitVal c1, c2 :: rest)
      else none
    else if isDigitC c1 && 1 ≤ digitVal c1 then some (digitVal c1, c2 :: rest)
    else none
  | [c1] =>
    if isDigitC c1 && 1 ≤ digitVal c1 then some (digitVal c1, []) else none
  | [] => none

/-- `%m` of CPython `_strptime` (`1[0-2]|0[1-9]|[1-9]`): one or two digits
with value 1–12, preferring the two-digit reading. -/
def parseMonthNum : List Char → Option (Nat × List Char)
  | c1 :: c2 :: rest =>
    if isDigitC c1 && isDigitC c2 then
      let v := digitVal c1 * 10 + digitVal c2
      if 1 ≤ v && v ≤ 12 then some (v, rest)
      else if 1 ≤ digitVal c1 then some (digitVal c1, c2 :: rest)
      else none
    else if isDigitC c1 && 1 ≤ digitVal c1 then some (digitVal c1, c2 :: rest)
    else none
  | [c1] =>
    if isDigitC c1 && 1 ≤ digitVal c1 then some (digitVal c1, []) else none
  | [] => none

/-- `%y`: exactly two digits, century resolved by CPython's rule
(`00-68 ↦ 20xx`, `69-99 ↦ 19xx`). -/
def parseY2 : List Char → Option (Int × List Char)
  | c1 :: c2 :: rest =>
    if isDigitC c1 && isDigitC c2 then
      let v := digitVal c1 * 10 + digitVal c2
      some ((if v ≤ 68 then 2000 + v else 1900 + v : Int), rest)
    else none
  | _ => none

/-- `%Y`: exactly four digits. -/
def parseY4 : List Char → Option (Int × List Char)
  | c1 :: c2 :: c3 :: c4 :: rest =>
    if isDigitC c1 && isDigitC c2 && isDigitC c3 && isDigitC c4 then
      some ((digitVal c1 * 1000 + digitVal c2 * 100 + digitVal c3 * 10 + digitVal c4 : Int), rest)
    else none
  | _ => none

def monthAbbrevs : List (List Char) :=
  [['j', 'a', 'n'], ['f', 'e', 'b'], ['m', 'a', 'r'], ['a', 'p', 'r'],
   ['m', 'a', 'y'], ['j', 'u', 'n'], ['j', 'u', 'l'], ['a', 'u', 'g'],
   ['s', 'e', 'p'], ['o', 'c', 't'], ['n', 'o', 'v'], ['d', 'e', 'c']]

/-- `%b`: a three-letter English month abbreviation, case-insensitively. -/
def parseMonthAbbrev : List Char → Option (Nat × List Char)
  | a :: b :: c :: rest =>
    match monthAbbrevs.findIdx? (fun k => k = [a.toLower, b.toLower, c.toLower]) with
    | some i => some (i + 1, rest)
    | none => none
  | _ => none

/-- A literal character of a format string. -/
def expectChar (c : Char) : List Char → Option (List Char)
  | x :: rest => if x = c then some rest else none
  | [] => none

/-- Format `"%d%b%y"` (`14Jan26`). -/
def fmt_dby (l : List Char) : Option (Int × Nat × Nat) := do
  let (d, l) ← parseDay l
  let (m, l) ← parseMonthAbbrev l
  let (y, l) ← parseY2 l
  if l.isEmpty then pure (y, m, d) else none

/-- Format `"%d%b%Y"` (`14Jan2026`). -/
def fmt_dbY (l : List Char) : Option (Int × Nat × Nat) := do
  let (d, l) ← parseDay l
  let (m, l) ← parseMonthAbbrev l
  let (y, l) ← parseY4 l
  if l.isEmpty then pure (y, m, d) else none

/-- Format `"%Y-%m-%d"` (`2026-01-14`). -/
def fmt_iso (l : List Char) : Option (Int × Nat × Nat) := do
  let (y, l) ← parseY4 l
  let l ← expectChar '-' l
  let (m, l) ← parseMonthNum l
  let l ← expectChar '-' l
  let (d, l) ← parseDay l
  if l.isEmpty then pure (y, m, d) else none

/-- Format `"%d/%m/%Y"` (`14/01/2026`). -/
def fmt_dmY (l : List Char) : Option (Int × Nat × Nat) := do
  let (d, l) ← parseDay l
  let l ← expectChar '/' l
  let (m, l) ← parseMonthNum l
  let l ← expectChar '/' l
  let (y, l) ← parseY4 l
  if l.isEmpty then pure (y, m, d) else none

/-- Format `"%d/%m/%y"` (`14/01/26`). -/
def fmt_dmy (l : List Char) : Option (Int × Nat × Nat) := do
  let (d, l) ← parseDay l
  let l ← expectChar '/' l
  let (m, l) ← parseMonthNum l
  let l ← expectChar '/' l
  let (y, l) ← parseY2 l
  if l.isEmpty then pure (y, m, d) else none

/-- The `DATE_FORMATS` list, in source order. -/
def dateFormats : List (List Char → Option (Int × Nat × Nat)) :=
  [fmt_dby, fmt_dbY, fmt_iso, fmt_dmY, fmt_dmy]

/-- Validity check performed by the `datetime` constructor after the format
regex matches (`MINYEAR = 1`, `MAXYEAR = 9999`, day within the month). -/
def validDate (y : Int) (m d : Nat) : Bool :=
  1 ≤ y && y ≤ 9999 && 1 ≤ m && m ≤ 12 && 1 ≤ d && d ≤ daysInMonth y m

/-- One `datetime.strptime(s, fmt).date()` attempt: `some` ordinal on success,
`none` when the format raises `ValueError`. -/
def tryFormat (f : List Char → Option (Int × Nat × Nat)) (l : List Char) : Option Int :=
  match f l with
  | some (y, m, d) => if validDate y m d then some (dateOrd y m d) else none
  | none => none

/-- `parse_date` (identical in both source files): strip, try the five formats
in order, return the first success, otherwise raise carrying the token. -/
def parse_date (s : String) : Except String Int :=
  let t := pyStrip s.data
  match dateFormats.findSome? (fun f => tryFormat f t) with
  | some d => .ok d
  | none =>
    .error ("Could not parse date '" ++ String.mk t ++ "'. Try 14Jan26 or 2026-01-14.")

/-! ### `clean_reason` -/

/-- The quote-stripping step of `clean_reason`: if the trimmed text starts and
ends with `"` (or starts and ends with `'`), drop the first and last character
and re-strip.  Note the source checks the two ends independently, not that
they form one wrapping pair. -/
def stripQuotes (r : List Char) : List Char :=
  if (r.head? = some '"' ∧ r.getLast? = some '"') ∨
      (r.head? = some squote ∧ r.getLast? = some squote) then
    pyStrip (r.drop 1).dropLast
  else r

/-- `clean_reason` (identical in both source files). -/
def clean_reason (reasonRaw : Option String) : String :=
  match reasonRaw with
  | none => ""
  | some s =>
    if s = "" then ""
    else String.mk (stripQuotes (pyStrip s.data))

/-! ### Command grammar (`ADD_RE`, `SHOW_RE`, `MENTION_RE`)

The two command regexes have no essential backtracking: every `\S+` / `[^*]+`
group is followed by a pattern that can only match where the greedy run ends,
so they are embedded as deterministic matchers.  `$` is modelled as
end-of-input; the handler only ever matches stripped text, which cannot end in
the newline that `$` would otherwise tolerate. -/

/-- Case-insensitive literal keyword (keyword given in lowercase). -/
def expectCI : List Char → List Char → Option (List Char)
  | [], l => some l
  | k :: ks, c :: cs => if c.toLower = k then expectCI ks cs else none
  | _ :: _, [] => none

/-- `\s+`: at least one whitespace character, consumed greedily. -/
def dropSpaces1 : List Char → Option (List Char)
  | c :: rest => if isPySpace c then some (rest.dropWhile isPySpace) else none
  | [] => none

/-- `\S+`: a maximal nonempty run of non-whitespace characters. -/
def takeToken (l : List Char) : Option (List Char × List Char) :=
  let t := l.takeWhile (fun c => !isPySpace c)
  if t.isEmpty then none else some (t, l.dropWhile (fun c => !isPySpace c))

/-- The optional `(?:\s+reason:(?P<reason>.+))?\s*$` tail of `ADD_RE`:
`.` does not match a newline, and after the greedy capture the remainder must
be all whitespace for `\s*$` to succeed. -/
def reasonTail (l : List Char) : Option (List Char) := do
  let l ← dropSpaces1 l
  let l ← expectCI ['r', 'e', 'a', 's', 'o', 'n', ':'] l
  let cap := l.takeWhile (fun c => c ≠ '\n')
  let rest := l.drop cap.length
  if cap.isEmpty then none
  else if rest.all isPySpace then some cap else none

/-- The part of `ADD_RE` after the `to` capture. -/
def matchAddTail (ftok ttok : List Char) (l : List Char) :
    Option (List Char × List Char × Option (List Char)) :=
  match reasonTail l with
  | some r => some (ftok, ttok, some r)
  | none => if (l.dropWhile isPySpace).isEmpty then some (ftok, ttok, none) else none

/-- The part of `ADD_RE` after the literal `from:`. -/
def matchAddFrom (l : List Char) : Option (List Char × List Char × Option (List Char)) := do
  let (ftok, l) ← takeToken l
  let l ← dropSpaces1 l
  let l ← expectCI ['t', 'o', ':'] l
  let (ttok, l) ← takeToken l
  matchAddTail ftok ttok l

/-- `ADD_RE.match`: returns the `from`, `to` and optional `reason` captures. -/
def matchAdd (content : List Char) : Option (List Char × List Char × Option (List Char)) := do
  let l := content.dropWhile isPySpace
  let l ← expectCI ['a', 'd', 'd'] l
  let l ← dropSpaces1 l
  let l ← expectCI ['l', 'e', 'a', 'v', 'e'] l
  let l ← dropSpaces1 l
  let l ← expectCI ['f', 'r', 'o', 'm', ':'] l
  matchAddFrom l

/-- The optional `(?:\s+week:(?P<week>\S+))?\s*$` tail of `SHOW_RE`. -/
def weekTail (l : List Char) : Option (List Char) := do
  let l ← dropSpaces1 l
  let l ← expectCI ['w', 'e', 'e', 'k', ':'] l
  let (tok, rest) ← takeToken l
  if rest.all isPySpace then some tok else none

/-- `SHOW_RE.match`: returns the optional `week` capture. -/
def matchShow (content : List Char) : Option (Option (List Char)) := do
  let l := content.dropWhile isPySpace
  let l ← expectCI ['s', 'h', 'o', 'w'] l
  let l ← dropSpaces1 l
  let l ← expectCI ['l', 'e', 'a', 'v', 'e'] l
  match weekTail l with
  | some w => some (some w)
  | none => if (l.dropWhile isPySpace).isEmpty then some none else none

/-- `MENTION_RE.sub("", content)`: strip one leading `@**Bot Name**` (plus
trailing whitespace of the mention) when present. -/
def stripMention (l : List Char) : List Char :=
  match l with
  | '@' :: '*' :: '*' :: rest =>
    let body := rest.takeWhile (fun c => c ≠ '*')
    if body.isEmpty then l
    else
      match rest.dropWhile (fun c => c ≠ '*') with
      | '*' :: '*' :: tail => tail.dropWhile isPySpace
      | _ => l
  | _ => l

/-! ### Week resolver -/

/-- Error message of `parse_week_selector` for an unparseable token. -/
def weekSelErrMsg : String := "week: must be one of this|next|YYYY-MM-DD|14Jan26"

/-- `re.search(r"[A-Za-z]", sel)`: the string contains an ASCII letter. -/
def hasAsciiAlpha (s : String) : Bool :=
  s.data.any (fun c => ('A' ≤ c && c ≤ 'Z') || ('a' ≤ c && c ≤ 'z'))

/-- `parse_week_selector` from `src/api/holidaybot.py` (the canonical week
resolver; §9 of the spec designates this copy's behaviour as intended).
`today` (`datetime.now(TZ).date()`) is passed explicitly. -/
def parse_week_selector (today : Int) (sel : Option String) :
    Except String (Int × Int × String) :=
  let s := sel.getD ""
  if s = "" ∨ lowerStr s = "this" ∨ lowerStr s = "current" then
    let wr := week_range today
    .ok (wr.1, wr.2, "this week")
  else if lowerStr s = "next" then
    let wr := week_range (today + 7)
    .ok (wr.1, wr.2, "next week")
  else
    let anchor? : Option Int :=
      if hasAsciiAlpha s then
        match parse_date s with
        | .ok d => some d
        | .error _ => none
      else
        tryFormat fmt_iso s.data
    match anchor? with
    | none => .error weekSelErrMsg
    | some a =>
      let wr := week_range a
      .ok (wr.1, wr.2, "week of " ++ isoFormat wr.1)

/-- `parse_week` from `src/main.py`: a drifted near-duplicate of
`parse_week_selector` (case-sensitive keyword comparison, all date tokens
routed through `parse_date`, the raw `ValueError` propagating to the caller).
Kept to document the drift; §9 of the spec treats it as an incomplete edit. -/
def parse_week (today : Int) (sel : Option String) :
    Except String (Int × Int × String) :=
  let s := sel.getD ""
  if s = "" ∨ s = "this" ∨ s = "current" then
    let wr := week_range today
    .ok (wr.1, wr.2, "this week")
  else if s = "next" then
    let wr := week_range (today + 7)
    .ok (wr.1, wr.2, "next week")
  else
    match parse_date s with
    | .error e => .error e
    | .ok a =>
      let wr := week_range a
      .ok (wr.1, wr.2, "week of " ++ isoFormat wr.1)

/-! ### The leave store

The Postgres `leaves` table is embedded as a list of rows plus the next
`BIGSERIAL` id.  The two SQL statements of the handler are translated to list
operations: `INSERT ... RETURNING id` appends a row and returns the id, and
`SELECT ... WHERE NOT (end_date < %s OR start_date > %s) ORDER BY start_date,
user_name` filters with exactly that predicate and sorts by
`(start_date, user_name)` ascending (ordinal collation). -/

structure LeaveRow where
  id : Int
  userId : Int
  userName : String
  startDate : Int
  endDate : Int
  reason : String
deriving DecidableEq

structure Store where
  rows : List LeaveRow
  nextId : Int
deriving DecidableEq

/-- The `WHERE NOT (end_date < ws OR start_date > we)` predicate. -/
def overlaps (ws we : Int) (r : LeaveRow) : Bool :=
  !(r.endDate < ws || r.startDate > we)

/-- The `ORDER BY start_date ASC, user_name ASC` comparison. -/
def rowLE (a b : LeaveRow) : Prop :=
  a.startDate < b.startDate ∨
    (a.startDate = b.startDate ∧ charsLe a.userName.data b.userName.data = true)

instance : DecidableRel rowLE := fun a b => by
  unfold rowLE
  infer_instance

theorem charsLe_total (a b : List Char) : charsLe a b = true ∨ charsLe b a = true := by
  induction a generalizing b with
  | nil => exact Or.inl rfl
  | cons x xs ih =>
    cases b with
    | nil => exact Or.inr rfl
    | cons y ys =>
      rcases Nat.lt_trichotomy x.toNat y.toNat with h | h | h
      · left
        simp [charsLe, h]
      · rcases ih ys with h2 | h2
        · left
          simp [charsLe, h, h2]
        · right
          simp [charsLe, h.symm, h2]
      · right
        simp [charsLe, h]

theorem charsLe_trans (a b c : List Char) (hab : charsLe a b = true)
    (hbc : charsLe b c = true) : charsLe a c = true := by
  induction a generalizing b c with
  | nil => rfl
  | cons x xs ih =>
    cases b with
    | nil => simp [charsLe] at hab
    | cons y ys =>
      cases c with
      | nil => simp [charsLe] at hbc
      | cons z zs =>
        simp only [charsLe] at hab hbc ⊢
        by_cases hxy : x.toNat < y.toNat
        · by_cases hyz : y.toNat < z.toNat
          · simp [Nat.lt_trans hxy hyz]
          · simp only [hyz, if_false] at hbc
            by_cases hzy : z.toNat < y.toNat
            · simp [hzy] at hbc
            · have hyzeq : y.toNat = z.toNat := by omega
              simp [hyzeq ▸ hxy]
        · simp only [hxy, if_false] at hab
          by_cases hyx : y.toNat < x.toNat
          · simp [hyx] at hab
          · simp only [hyx, if_false] at hab
            have hxyeq : x.toNat = y.toNat := by omega
            by_cases hyz : y.toNat < z.toNat
            · simp [hxyeq ▸ hyz]
            · simp only [hyz, if_false] at hbc
              by_cases hzy : z.toNat < y.toNat
              · simp [hzy] at hbc
              · simp only [hzy, if_false] at hbc
                have hxz : ¬ x.toNat < z.toNat := by omega
                have hzx : ¬ z.toNat < x.toNat := by omega
                simp only [hxz, hzx, if_false]
                exact ih ys zs hab hbc

instance : IsTotal LeaveRow rowLE :=
  ⟨by
    intro a b
    unfold rowLE
    rcases lt_trichotomy a.startDate b.startDate with h | h | h
    · exact Or.inl (Or.inl h)
    · rcases charsLe_total a.userName.data b.userName.data with h2 | h2
      · exact Or.inl (Or.inr ⟨h, h2⟩)
      · exact Or.inr (Or.inr ⟨h.symm, h2⟩)
    · exact Or.inr (Or.inl h)⟩

instance : IsTrans LeaveRow rowLE :=
  ⟨by
    intro a b c hab hbc
    unfold rowLE at hab hbc ⊢
    rcases hab with h1 | ⟨h1, h1n⟩
    · rcases hbc with h2 | ⟨h2, _⟩
      · exact Or.inl (lt_trans h1 h2)
      · exact Or.inl (h2 ▸ h1)
    · rcases hbc with h2 | ⟨h2, h2n⟩
      · exact Or.inl (h1 ▸ h2)
      · exact Or.inr ⟨h1.trans h2, charsLe_trans _ _ _ h1n h2n⟩⟩

/-- The `SELECT` of the show branch (`FindOverlapping`). -/
def findOverlapping (rows : List LeaveRow) (ws we : Int) : List LeaveRow :=
  List.insertionSort rowLE (rows.filter (overlaps ws we))

/-! ### Reply formatting and the request handler (`src/api/holidaybot.py`) -/

/-- `usage()` (identical in both source files). -/
def usage : String :=
  "Commands:\n" ++
  "• add leave from:14Jan26 to:16Jan26 reason:\"study leave\"\n" ++
  "• show leave\n" ++
  "• show leave week:this | week:next | week:2026-01-14\n"

/-- `format_rows` from `src/api/holidaybot.py` (rows given as `LeaveRow`s in
the order the `SELECT` returned them). -/
def format_rows (rows : List LeaveRow) (weekStart weekEnd : Int) (label : String) : String :=
  if rows.isEmpty then
    "No leave recorded for " ++ label ++ " (" ++ isoFormat weekStart ++ " to " ++
      isoFormat weekEnd ++ ")."
  else
    let header := "Leave for " ++ label ++ " (" ++ isoFormat weekStart ++ " to " ++
      isoFormat weekEnd ++ "):"
    let lines := rows.map (fun r =>
      "- " ++ r.userName ++ ": " ++ isoFormat r.startDate ++ " → " ++ isoFormat r.endDate ++
        (if r.reason ≠ "" then " — \"" ++ r.reason ++ "\"" else ""))
    String.intercalate "\n" (header :: lines)

/-- The `message` object of the webhook payload. -/
structure Message where
  content : Option String
  sender_full_name : Option String
  sender_id : Option Int

/-- The decoded JSON payload of an inbound webhook call. -/
structure Payload where
  token : Option String
  data : Option String
  message : Option Message

/-- Environment configuration (`DATABASE_URL`, `OUTGOING_WEBHOOK_TOKEN`). -/
structure Config where
  databaseUrl : Option String
  webhookToken : Option String

/-- Failure oracle for the store round-trips: `connectOk` / `ensureOk` model
`psycopg.connect` / `ensure_schema` raising, and `insertFail` / `selectFail`
carry the exception text of a failing `INSERT` / `SELECT`. -/
structure Faults where
  connectOk : Bool
  ensureOk : Bool
  insertFail : Option String
  selectFail : Option String

/-- Store accesses performed while handling one request. -/
inductive StoreOp
  | ensureSchema
  | insert
  | select
deriving DecidableEq

/-- The webhook response: a JSON body with a `content` text (at some HTTP
status), or the `response_not_required` body of a failed token check. -/
inductive Reply
  | contentReply (status : Nat) (text : String)
  | noResponseRequired
deriving DecidableEq

structure HandlerResult where
  reply : Reply
  store : Store
  ops : List StoreOp
deriving DecidableEq

/-- The generic reply of the outermost `except` handler. -/
def somethingWrong : String := "❌ Something went wrong on the server."

/-- The `ADD_RE` branch of `do_POST` (inside its inner `try`). -/
def addBranch (ftok ttok : List Char) (rtok : Option (List Char))
    (senderName : String) (senderId : Int) (store : Store) (faults : Faults) :
    HandlerResult :=
  match parse_date (String.mk ftok) with
  | .error e =>
    ⟨.contentReply 200 ("❌ Could not add leave: " ++ e ++ "\n\n" ++ usage), store,
      [.ensureSchema]⟩
  | .ok startD =>
    match parse_date (String.mk ttok) with
    | .error e =>
      ⟨.contentReply 200 ("❌ Could not add leave: " ++ e ++ "\n\n" ++ usage), store,
        [.ensureSchema]⟩
    | .ok endD =>
      let reason := clean_reason (rtok.map String.mk)
      if endD < startD then
        ⟨.contentReply 200
            ("❌ Could not add leave: End date is before start date.\n\n" ++ usage),
          store, [.ensureSchema]⟩
      else
        match faults.insertFail with
        | some e =>
          ⟨.contentReply 200 ("❌ Could not add leave: " ++ e ++ "\n\n" ++ usage), store,
            [.ensureSchema, .insert]⟩
        | none =>
          let leaveId := store.nextId
          let row : LeaveRow := ⟨leaveId, senderId, senderName, startD, endD, reason⟩
          ⟨.contentReply 200
              ("✅ Added leave #" ++ toString leaveId ++ " for " ++ senderName ++ ": " ++
                isoFormat startD ++ " → " ++ isoFormat endD ++
                (if reason ≠ "" then " (reason: \"" ++ reason ++ "\")" else "")),
            ⟨store.rows ++ [row], store.nextId + 1⟩, [.ensureSchema, .insert]⟩

/-- The `SHOW_RE` branch of `do_POST` (inside its inner `try`). -/
def showBranch (wk : Option (List Char)) (today : Int) (store : Store)
    (faults : Faults) : HandlerResult :=
  match parse_week_selector today (wk.map String.mk) with
  | .error e =>
    ⟨.contentReply 200 ("❌ Could not show leave: " ++ e ++ "\n\n" ++ usage), store,
      [.ensureSchema]⟩
  | .ok (ws, we, label) =>
    match faults.selectFail with
    | some e =>
      ⟨.contentReply 200 ("❌ Could not show leave: " ++ e ++ "\n\n" ++ usage), store,
        [.ensureSchema, .select]⟩
    | none =>
      ⟨.contentReply 200 (format_rows (findOverlapping store.rows ws we) ws we label),
        store, [.ensureSchema, .select]⟩

/-- The `with psycopg.connect(...)` body of `do_POST`: connect, ensure the
schema, then dispatch on the two grammars; a `connect` / `ensure_schema`
failure propagates to the outermost `except`, which replies with the generic
text. -/
def runCommand (content senderName : String) (senderId today : Int)
    (store : Store) (faults : Faults) : HandlerResult :=
  if !faults.connectOk then ⟨.contentReply 200 somethingWrong, store, []⟩
  else if !faults.ensureOk then ⟨.contentReply 200 somethingWrong, store, [.ensureSchema]⟩
  else
    match matchAdd content.data with
    | some (ftok, ttok, rtok) => addBranch ftok ttok rtok senderName senderId store faults
    | none =>
      match matchShow content.data with
      | some wk => showBranch wk today store faults
      | none =>
        ⟨.contentReply 200 ("Sorry, I didn’t understand.\n\n" ++ usage), store,
          [.ensureSchema]⟩

/-- The part of `do_POST` after the `DATABASE_URL` and token guards: content
extraction (`data` falling back to `message.content`) with mention stripping,
the sender defaults, the empty-command reply, then the command pipeline. -/
def doPostAfterAuth (payload : Payload) (today : Int) (store : Store)
    (faults : Faults) : HandlerResult :=
  let msg := payload.message.getD ⟨none, none, none⟩
  let rawContent :=
    let d := payload.data.getD ""
    if d ≠ "" then d else msg.content.getD ""
  let content := String.mk (pyStrip (stripMention (pyStrip rawContent.data)))
  let senderName :=
    let n := msg.sender_full_name.getD ""
    if n ≠ "" then n else "Unknown"
  let senderId := msg.sender_id.getD 0
  if content = "" then
    ⟨.contentReply 200 ("Sorry, I didn’t get a command.\n\n" ++ usage), store, []⟩
  else runCommand content senderName senderId today store faults

/-- `handler.do_POST` from `src/api/holidaybot.py`, from the decoded payload
on: the `DATABASE_URL` guard, the token check, then `doPostAfterAuth`.
`today` stands for `datetime.now(TZ).date()`. -/
def doPost (cfg : Config) (payload : Payload) (today : Int) (store : Store)
    (faults : Faults) : HandlerResult :=
  if cfg.databaseUrl.getD "" = "" then
    ⟨.contentReply 500 "❌ Server misconfigured: DATABASE_URL is missing.", store, []⟩
  else
    match cfg.webhookToken with
    | some t =>
      if t ≠ "" ∧ payload.token ≠ some t then ⟨.noResponseRequired, store, []⟩
      else doPostAfterAuth payload today store faults
    | none => doPostAfterAuth payload today store faults

example : clean_reason (some " \"study leave\" ") = "study leave" := rfl
example : clean_reason (some "\"") = "" := rfl
example : clean_reason (some "\"a\" or \"b\"") = "a\" or \"b" := rfl
example : matchAdd "add leave from:14Jan26 to:16Jan26 reason:\"study leave\"".data =
    some ("14Jan26".data, "16Jan26".data, some "\"study leave\"".data) := rfl
example : matchAdd "add leave from:14Jan26 to:16Jan26 reason:".data = none := rfl
example : matchAdd "  ADD  Leave  from:a to:b  ".data = some ("a".data, "b".data, none) := rfl
example : matchShow "show leave".data = some none := rfl
example : matchShow "show leave week:next".data = some (some "next".data) := rfl
example : matchShow "show leave week:".data = none := rfl
example : stripMention "@**Holiday Bot** show leave".data = "show leave".data := rfl
example : parse_week_selector 739630 (some "NEXT") = .ok (739635, 739641, "next week") := rfl
example : parse_week_selector 739630 (some "2026-01-14") =
    .ok (739628, 739634, "week of 2026-01-12") := rfl
example : parse_week_selector 739630 (some "14/01/2026") = .error weekSelErrMsg := rfl
example : parse_week_selector 739630 (some "2026-1-4") =
    .ok (739614, 739620, "week of 2025-12-29") := rfl
example : parse_week 739630 (some "NEXT") =
    .error "Could not parse date 'NEXT'. Try 14Jan26 or 2026-01-14." := rfl

/-! ### Shared facts about `week_range` -/

theorem weekRange_monday (a : Int) : pyWeekday (week_range a).1 = 0 := by
  simp only [week_range, pyWeekday]
  omega

theorem weekRange_start_le (a : Int) : (week_range a).1 ≤ a := by
  simp only [week_range, pyWeekday]
  omega

theorem weekRange_le_end (a : Int) : a ≤ (week_range a).2 := by
  simp only [week_range, pyWeekday]
  omega

theorem weekRange_sameWeek (a b : Int) (h : sameISOWeek a b) :
    week_range a = week_range b := by
  simp only [sameISOWeek] at h
  simp only [week_range, pyWeekday, Prod.mk.injEq]
  constructor
  · omega
  · omega

/-! ### Claim theorems -/

/-- C7: for every calendar date, `week_range` returns a window whose start is
a Monday (`weekday = 0`), whose end is start plus 6 days, which contains the
anchor date, and which is identical for all dates of the same ISO week. -/
theorem c7_week_range_monday (anchor : Int) :
    pyWeekday (week_range anchor).1 = 0
    ∧ (week_range anchor).2 = (week_range anchor).1 + 6
    ∧ (week_range anchor).1 ≤ anchor ∧ anchor ≤ (week_range anchor).2
    ∧ ∀ b : Int, sameISOWeek anchor b → week_range anchor = week_range b :=
  ⟨weekRange_monday anchor, rfl, weekRange_start_le anchor, weekRange_le_end anchor,
   fun b hb => weekRange_sameWeek anchor b hb⟩

/-- Witness for C7 at 2026-01-14 (ordinal 739630) and the Sunday of the same
ISO week, 2026-01-18 (ordinal 739634). -/
theorem c7_witness :
    pyWeekday (week_range 739630).1 = 0 ∧ week_range 739630 = week_range 739634 :=
  ⟨(c7_week_range_monday 739630).1,
   (c7_week_range_monday 739630).2.2.2.2 739634 (by decide)⟩

/-- C5: the date parser tries the five formats of `DATE_FORMATS` in order;
the five representative literals `14Jan26`, `14Jan2026`, `2026-01-14`,
`14/01/2026` and `14/01/26` all parse to the calendar date 2026-01-14, and a
token (with no surrounding whitespace) matching none of the five formats
fails with a `ValueError` whose message carries the original token. -/
theorem c5_date_formats :
    (parse_date "14Jan26" = .ok (dateOrd 2026 1 14)
      ∧ parse_date "14Jan2026" = .ok (dateOrd 2026 1 14)
      ∧ parse_date "2026-01-14" = .ok (dateOrd 2026 1 14)
      ∧ parse_date "14/01/2026" = .ok (dateOrd 2026 1 14)
      ∧ parse_date "14/01/26" = .ok (dateOrd 2026 1 14))
    ∧ ∀ s : String, pyStrip s.data = s.data →
        (∀ f ∈ dateFormats, tryFormat f s.data = none) →
        parse_date s =
          .error ("Could not parse date '" ++ s ++ "'. Try 14Jan26 or 2026-01-14.") := by
  refine ⟨⟨rfl, rfl, rfl, rfl, rfl⟩, ?_⟩
  intro s hstrip hall
  have hfind : dateFormats.findSome? (fun f => tryFormat f s.data) = none := by
    rw [List.findSome?_eq_none_iff]
    exact hall
  simp only [parse_date, hstrip, hfind]

/-- Witness for C5 on the unparseable token `not-a-date`. -/
theorem c5_witness :
    parse_date "not-a-date" =
      .error ("Could not parse date '" ++ "not-a-date" ++ "'. Try 14Jan26 or 2026-01-14.") := by
  refine c5_date_formats.2 "not-a-date" rfl ?_
  intro f hf
  simp only [dateFormats, List.mem_cons, List.not_mem_nil, or_false] at hf
  rcases hf with rfl | rfl | rfl | rfl | rfl <;> rfl

/-- C9: `clean_reason` strips the first and last character whenever the
trimmed input starts and ends with the same straight quote character, with no
check that they form a genuine wrapping pair; in particular a lone `"` yields
the empty string, and `"a" or "b"` loses its outer quotes. -/
theorem c9_clean_reason_unpaired_quotes :
    (∀ s : String, s ≠ "" →
        ((pyStrip s.data).head? = some '"' ∧ (pyStrip s.data).getLast? = some '"')
          ∨ ((pyStrip s.data).head? = some squote ∧ (pyStrip s.data).getLast? = some squote) →
        clean_reason (some s) = String.mk (pyStrip ((pyStrip s.data).drop 1).dropLast))
    ∧ clean_reason (some "\"") = ""
    ∧ clean_reason (some "\"a\" or \"b\"") = "a\" or \"b" := by
  refine ⟨?_, rfl, rfl⟩
  intro s hne hq
  simp only [clean_reason, if_neg hne]
  unfold stripQuotes
  rw [if_pos hq]

/-- Witness for C9 on the properly quoted input `"abc"`. -/
theorem c9_witness : clean_reason (some "\"abc\"") = "abc" := by
  have h := c9_clean_reason_unpaired_quotes.1 "\"abc\"" (by decide) (Or.inl ⟨rfl, rfl⟩)
  exact h

/-- C3: a week selector that is absent or case-insensitively `this`/`current`
resolves to the Monday–Sunday window containing `today` with label
`"this week"`; a selector case-insensitively equal to `next` resolves to the
Monday–Sunday window containing `today + 7` with label `"next week"`
(`parse_week_selector`, the canonical week resolver per §9 of the spec). -/
theorem c3_week_selector_keywords (today : Int) (sel : Option String) :
    ((sel = none ∨ ∃ s, sel = some s ∧ (lowerStr s = "this" ∨ lowerStr s = "current")) →
      parse_week_selector today sel =
          .ok ((week_range today).1, (week_range today).2, "this week")
        ∧ (week_range today).1 ≤ today ∧ today ≤ (week_range today).2
        ∧ pyWeekday (week_range today).1 = 0
        ∧ (week_range today).2 = (week_range today).1 + 6)
    ∧ (∀ s, sel = some s → lowerStr s = "next" →
      parse_week_selector today sel =
          .ok ((week_range (today + 7)).1, (week_range (today + 7)).2, "next week")
        ∧ (week_range (today + 7)).1 ≤ today + 7 ∧ today + 7 ≤ (week_range (today + 7)).2
        ∧ pyWeekday (week_range (today + 7)).1 = 0
        ∧ (week_range (today + 7)).2 = (week_range (today + 7)).1 + 6) := by
  constructor
  · intro h
    rcases h with rfl | ⟨s, rfl, hs⟩
    · exact ⟨rfl, weekRange_start_le today, weekRange_le_end today,
        weekRange_monday today, rfl⟩
    · refine ⟨?_, weekRange_start_le today, weekRange_le_end today,
        weekRange_monday today, rfl⟩
      simp only [parse_week_selector, Option.getD_some]
      rw [if_pos (Or.inr hs)]
  · intro s hsel hnext
    subst hsel
    have hne : ¬(s = "" ∨ lowerStr s = "this" ∨ lowerStr s = "current") := by
      rintro (rfl | h | h)
      · exact absurd hnext (by decide)
      · rw [h] at hnext
        exact absurd hnext (by decide)
      · rw [h] at hnext
        exact absurd hnext (by decide)
    refine ⟨?_, weekRange_start_le (today + 7), weekRange_le_end (today + 7),
      weekRange_monday (today + 7), rfl⟩
    simp only [parse_week_selector, Option.getD_some]
    rw [if_neg hne, if_pos hnext]

/-- Witness for C3 with today = 2026-01-14 (ordinal 739630): `This` yields the
window 2026-01-12 … 2026-01-18, `NEXT` yields 2026-01-19 … 2026-01-25. -/
theorem c3_witness :
    parse_week_selector 739630 (some "This") = .ok (739628, 739634, "this week")
    ∧ parse_week_selector 739630 (some "NEXT") = .ok (739635, 739641, "next week") := by
  constructor
  · exact ((c3_week_selector_keywords 739630 (some "This")).1
      (Or.inr ⟨"This", rfl, Or.inl (by decide)⟩)).1
  · exact ((c3_week_selector_keywords 739630 (some "NEXT")).2 "NEXT" rfl (by decide)).1

/-- C6 counterexample: the claim says a non-alphabetic week selector "must be
a strict ISO YYYY-MM-DD date (any other non-alphabetic token … is rejected)",
but the code parses such tokens with `strptime("%Y-%m-%d")`, which accepts
one-digit months and days: the non-alphabetic, non-strict-ISO token
`2026-1-4` is accepted and resolved to the week of 2025-12-29. -/
theorem c6_counterexample :
    hasAsciiAlpha "2026-1-4" = false
    ∧ parse_week_selector 739630 (some "2026-1-4") =
        .ok (739614, 739620, "week of 2025-12-29") :=
  ⟨rfl, rfl⟩

/-- C6 (amended): a non-keyword week selector containing an ASCII letter is
parsed with the five-format date parser, and one without letters is parsed
with the `%Y-%m-%d` format (exactly four year digits, one or two month/day
digits — so `14/01/2026` is rejected while non-padded tokens like `2026-1-4`
are accepted); on success the resolver returns the Monday–Sunday window of
the anchor with label `"week of <that window's Monday in ISO format>"`. -/
theorem c6_week_selector_date (today : Int) (s : String)
    (h0 : s ≠ "") (h1 : lowerStr s ≠ "this") (h2 : lowerStr s ≠ "current")
    (h3 : lowerStr s ≠ "next") :
    (hasAsciiAlpha s = true →
      parse_week_selector today (some s) =
        match parse_date s with
        | .ok a =>
          .ok ((week_range a).1, (week_range a).2, "week of " ++ isoFormat (week_range a).1)
        | .error _ => .error weekSelErrMsg)
    ∧ (hasAsciiAlpha s = false →
      parse_week_selector today (some s) =
        match tryFormat fmt_iso s.data with
        | some a =>
          .ok ((week_range a).1, (week_range a).2, "week of " ++ isoFormat (week_range a).1)
        | none => .error weekSelErrMsg)
    ∧ parse_week_selector today (some "14/01/2026") = .error weekSelErrMsg
    ∧ parse_week_selector today (some "14Jan26") =
        .ok (739628, 739634, "week of 2026-01-12") := by
  have hne : ¬(s = "" ∨ lowerStr s = "this" ∨ lowerStr s = "current") := by
    rintro (h | h | h)
    · exact h0 h
    · exact h1 h
    · exact h2 h
  refine ⟨?_, ?_, rfl, rfl⟩
  · intro ha
    simp only [parse_week_selector, Option.getD_some]
    rw [if_neg hne, if_neg h3, if_pos ha]
    cases hpd : parse_date s <;> simp only [hpd]
  · intro ha
    simp only [parse_week_selector, Option.getD_some]
    rw [if_neg hne, if_neg h3, if_neg (show ¬ hasAsciiAlpha s = true by simp [ha])]
    cases hpf : tryFormat fmt_iso s.data <;> simp only [hpf]

/-- Witness for C6 on the alphabetic token `14Jan26`. -/
theorem c6_witness :
    parse_week_selector 739630 (some "14Jan26") =
      .ok (739628, 739634, "week of 2026-01-12") :=
  (c6_week_selector_date 739630 "14Jan26" (by decide) (by decide) (by decide)
    (by decide)).2.2.2

/-- C8: an inbound call whose token differs from the configured shared secret
(on a configured deployment) is answered with the `response_not_required`
signal, performs no store access (no schema-ensure, no insert, no select),
and leaves the persisted records unchanged. -/
theorem c8_token_mismatch_no_store_access (cfg : Config) (payload : Payload)
    (today : Int) (store : Store) (faults : Faults) (u t : String)
    (hdb : cfg.databaseUrl = some u) (hu : u ≠ "")
    (hs : cfg.webhookToken = some t) (ht : t ≠ "")
    (hmatch : payload.token ≠ some t) :
    doPost cfg payload today store faults = ⟨.noResponseRequired, store, []⟩ := by
  simp only [doPost, hdb, hs, Option.getD_some]
  rw [if_neg hu, if_pos (And.intro ht hmatch)]

/-- Witness for C8: a call with token `wrong` against configured secret
`secret`. -/
theorem c8_witness :
    doPost ⟨some "postgres:db", some "secret"⟩ ⟨some "wrong", some "show leave", none⟩
        739630 ⟨[], 1⟩ ⟨true, true, none, none⟩
      = ⟨.noResponseRequired, ⟨[], 1⟩, []⟩ :=
  c8_token_mismatch_no_store_access _ _ _ _ _ "postgres:db" "secret" rfl (by decide)
    rfl (by decide) (by decide)

/-! ### Helper lemmas for the handler theorems -/

theorem addBranch_reply_200 (ftok ttok : List Char) (rtok : Option (List Char))
    (senderName : String) (senderId : Int) (store : Store) (faults : Faults) :
    ∃ t, (addBranch ftok ttok rtok senderName senderId store faults).reply =
      .contentReply 200 t := by
  unfold addBranch
  cases parse_date (String.mk ftok) with
  | error e => exact ⟨_, rfl⟩
  | ok startD =>
    cases parse_date (String.mk ttok) with
    | error e => exact ⟨_, rfl⟩
    | ok endD =>
      dsimp only
      by_cases h : endD < startD
      · rw [if_pos h]
        exact ⟨_, rfl⟩
      · rw [if_neg h]
        cases faults.insertFail with
        | some e => exact ⟨_, rfl⟩
        | none => exact ⟨_, rfl⟩

theorem showBranch_reply_200 (wk : Option (List Char)) (today : Int) (store : Store)
    (faults : Faults) :
    ∃ t, (showBranch wk today store faults).reply = .contentReply 200 t := by
  unfold showBranch
  cases parse_week_selector today (wk.map String.mk) with
  | error e => exact ⟨_, rfl⟩
  | ok wl =>
    cases faults.selectFail with
    | some e => exact ⟨_, rfl⟩
    | none => exact ⟨_, rfl⟩

theorem runCommand_reply_200 (content senderName : String) (senderId today : Int)
    (store : Store) (faults : Faults) :
    ∃ t, (runCommand content senderName senderId today store faults).reply =
      .contentReply 200 t := by
  unfold runCommand
  by_cases hc : (!faults.connectOk) = true
  · rw [if_pos hc]
    exact ⟨_, rfl⟩
  · rw [if_neg hc]
    by_cases he : (!faults.ensureOk) = true
    · rw [if_pos he]
      exact ⟨_, rfl⟩
    · rw [if_neg he]
      cases matchAdd content.data with
      | some p => exact addBranch_reply_200 p.1 p.2.1 p.2.2 senderName senderId store faults
      | none =>
        cases matchShow content.data with
        | some wk => exact showBranch_reply_200 wk today store faults
        | none => exact ⟨_, rfl⟩

theorem doPostAfterAuth_reply_200 (payload : Payload) (today : Int) (store : Store)
    (faults : Faults) :
    ∃ t, (doPostAfterAuth payload today store faults).reply = .contentReply 200 t := by
  unfold doPostAfterAuth
  by_cases h : String.mk (pyStrip (stripMention (pyStrip
      (let d := payload.data.getD "";
        if d ≠ "" then d
        else (payload.message.getD ⟨none, none, none⟩).content.getD "").data))) = ""
  · rw [if_pos h]
    exact ⟨_, rfl⟩
  · rw [if_neg h]
    exact runCommand_reply_200 _ _ _ _ _ _

/-- C1: on a configured deployment (database URL present) and for every
request that passes the token check, the command pipeline always answers with
a status-200 textual `content` reply — for every payload, every store state,
and every combination of failures of the store round-trips (connect,
schema-ensure, insert, select); date-parse and validation failures are inside
the quantified payload.  An internal failure therefore never escapes as a
transport-level error. -/
theorem c1_pipeline_always_textual_reply (cfg : Config) (payload : Payload)
    (today : Int) (store : Store) (faults : Faults)
    (hdb : cfg.databaseUrl.getD "" ≠ "")
    (htok : ∀ t, cfg.webhookToken = some t → t ≠ "" → payload.token = some t) :
    ∃ text, (doPost cfg payload today store faults).reply = .contentReply 200 text := by
  unfold doPost
  rw [if_neg hdb]
  cases hcw : cfg.webhookToken with
  | none => exact doPostAfterAuth_reply_200 payload today store faults
  | some t =>
    have hpass : ¬(t ≠ "" ∧ payload.token ≠ some t) := by
      rintro ⟨h1, h2⟩
      exact h2 (htok t hcw h1)
    dsimp only
    rw [if_neg hpass]
    exact doPostAfterAuth_reply_200 payload today store faults

/-- Witness for C1: a valid add command against a store whose connection
fails still yields a status-200 textual reply. -/
theorem c1_witness :
    ∃ text, (doPost ⟨some "postgres:db", none⟩
        ⟨none, some "add leave from:14Jan26 to:16Jan26", none⟩ 739630 ⟨[], 1⟩
        ⟨false, true, none, none⟩).reply = .contentReply 200 text :=
  c1_pipeline_always_textual_reply _ _ _ _ _ (by decide) (fun t h => nomatch h)

/-- C4: an add command whose parsed end date is strictly earlier than its
parsed start date is rejected with the validation-error reply, and no store
write occurs: the persisted records are unchanged and no insert is attempted. -/
theorem c4_end_before_start_rejected (content senderName : String)
    (senderId today : Int) (store : Store) (faults : Faults)
    (f t : List Char) (r : Option (List Char)) (ds de : Int)
    (hm : matchAdd content.data = some (f, t, r))
    (hc : faults.connectOk = true) (he : faults.ensureOk = true)
    (hf : parse_date (String.mk f) = .ok ds)
    (ht : parse_date (String.mk t) = .ok de)
    (hlt : de < ds) :
    (runCommand content senderName senderId today store faults).reply =
        .contentReply 200 ("❌ Could not add leave: End date is before start date.\n\n" ++ usage)
    ∧ (runCommand content senderName senderId today store faults).store = store
    ∧ StoreOp.insert ∉ (runCommand content senderName senderId today store faults).ops := by
  have hab : addBranch f t r senderName senderId store faults =
      ⟨.contentReply 200 ("❌ Could not add leave: End date is before start date.\n\n" ++ usage),
        store, [.ensureSchema]⟩ := by
    simp only [addBranch, hf, ht]
    rw [if_pos hlt]
  have hrc : runCommand content senderName senderId today store faults =
      ⟨.contentReply 200 ("❌ Could not add leave: End date is before start date.\n\n" ++ usage),
        store, [.ensureSchema]⟩ := by
    simp only [runCommand, hc, he, Bool.not_true, hm]
    exact hab
  rw [hrc]
  refine ⟨rfl, rfl, ?_⟩
  dsimp only
  decide

/-- Witness for C4 on `add leave from:16Jan26 to:14Jan26` (end before start)
against a freshly empty store. -/
theorem c4_witness :
    (runCommand "add leave from:16Jan26 to:14Jan26" "Ann" 7 739630 ⟨[], 1⟩
        ⟨true, true, none, none⟩).reply =
      .contentReply 200 ("❌ Could not add leave: End date is before start date.\n\n" ++ usage)
    ∧ (runCommand "add leave from:16Jan26 to:14Jan26" "Ann" 7 739630 ⟨[], 1⟩
        ⟨true, true, none, none⟩).store = ⟨[], 1⟩ := by
  have h := c4_end_before_start_rejected "add leave from:16Jan26 to:14Jan26" "Ann" 7 739630
    ⟨[], 1⟩ ⟨true, true, none, none⟩ "16Jan26".data "14Jan26".data none 739632 739630
    rfl rfl rfl rfl rfl (by decide)
  exact ⟨h.1, h.2.1⟩

theorem takeWhile_append_cons {α} (p : α → Bool) (xs : List α) (y : α) (ys : List α)
    (hx : ∀ c ∈ xs, p c = true) (hy : p y = false) :
    (xs ++ y :: ys).takeWhile p = xs := by
  induction xs with
  | nil => simp [List.takeWhile_cons, hy]
  | cons a as ih =>
    have ha := hx a (List.mem_cons_self a as)
    simp only [List.cons_append, List.takeWhile_cons, ha, if_true]
    rw [ih (fun c hc => hx c (List.mem_cons_of_mem a hc))]

theorem dropWhile_append_cons {α} (p : α → Bool) (xs : List α) (y : α) (ys : List α)
    (hx : ∀ c ∈ xs, p c = true) (hy : p y = false) :
    (xs ++ y :: ys).dropWhile p = y :: ys := by
  induction xs with
  | nil => simp [List.dropWhile_cons, hy]
  | cons a as ih =>
    have ha := hx a (List.mem_cons_self a as)
    simp only [List.cons_append, List.dropWhile_cons, ha, if_true]
    exact ih (fun c hc => hx c (List.mem_cons_of_mem a hc))

/-- A `\S+` capture consumes exactly a whitespace-free token followed by a
space. -/
theorem takeToken_append (f tail : List Char) (hf : f ≠ [])
    (hfs : ∀ c ∈ f, isPySpace c = false) :
    takeToken (f ++ ' ' :: tail) = some (f, ' ' :: tail) := by
  unfold takeToken
  rw [takeWhile_append_cons (fun c => !isPySpace c) f ' ' tail
      (fun c hc => by show (!isPySpace c) = true; rw [hfs c hc]; rfl) rfl]
  rw [dropWhile_append_cons (fun c => !isPySpace c) f ' ' tail
      (fun c hc => by show (!isPySpace c) = true; rw [hfs c hc]; rfl) rfl]
  rw [if_neg (by simpa using hf)]

/-- Processing of the part of an add command after `from:` when the two
tokens are well-formed and the text continues ` reason:`-style after the
second token. -/
theorem matchAddFrom_shape (f t tail : List Char) (hf : f ≠ []) (ht : t ≠ [])
    (hfs : ∀ c ∈ f, isPySpace c = false) (hts : ∀ c ∈ t, isPySpace c = false) :
    matchAddFrom (f ++ ' ' :: ("to:".data ++ (t ++ ' ' :: tail)))
      = matchAddTail f t (' ' :: tail) := by
  unfold matchAddFrom
  rw [takeToken_append f ("to:".data ++ (t ++ ' ' :: tail)) hf hfs]
  show Option.bind (takeToken (t ++ ' ' :: tail)) (fun q => matchAddTail f q.1 q.2)
      = matchAddTail f t (' ' :: tail)
  rw [takeToken_append t tail ht hts]
  rfl

/-- When neither grammar matches, the handler replies with the
did-not-understand text and the usage message, touching only the schema. -/
theorem runCommand_unrec (content senderName : String) (senderId today : Int)
    (store : Store) (faults : Faults)
    (hc : faults.connectOk = true) (he : faults.ensureOk = true)
    (hA : matchAdd content.data = none) (hS : matchShow content.data = none) :
    runCommand content senderName senderId today store faults
      = ⟨.contentReply 200 ("Sorry, I didn’t understand.\n\n" ++ usage), store,
          [.ensureSchema]⟩ := by
  unfold runCommand
  rw [hc, he]
  rw [if_neg (show ¬((!true) = true) from by decide)]
  rw [if_neg (show ¬((!true) = true) from by decide)]
  rw [hA, hS]

/-- C10: an add command ending in `reason:` with nothing after the colon does
not match `ADD_RE` at all (the reason capture needs at least one character:
with one character appended the same command matches), it does not match
`SHOW_RE` either, and the handler therefore answers it as an unrecognized
command with the usage text, leaving the store unchanged. -/
theorem c10_empty_reason_unrecognized (f t content content2 : List Char)
    (hf : f ≠ []) (ht : t ≠ [])
    (hfs : ∀ c ∈ f, isPySpace c = false) (hts : ∀ c ∈ t, isPySpace c = false)
    (hC : content = "add leave from:".data ++ (f ++ ' ' :: ("to:".data ++ (t ++ ' ' :: "reason:".data))))
    (hC2 : content2 = "add leave from:".data ++ (f ++ ' ' :: ("to:".data ++ (t ++ ' ' :: "reason:x".data)))) :
    matchAdd content = none
    ∧ matchShow content = none
    ∧ matchAdd content2 = some (f, t, some ['x'])
    ∧ ∀ (senderName : String) (senderId today : Int) (store : Store) (faults : Faults),
        faults.connectOk = true → faults.ensureOk = true →
        runCommand (String.mk content) senderName senderId today store faults
          = ⟨.contentReply 200 ("Sorry, I didn’t understand.\n\n" ++ usage), store,
              [.ensureSchema]⟩ := by
  subst hC hC2
  have hadd : matchAdd ("add leave from:".data ++
      (f ++ ' ' :: ("to:".data ++ (t ++ ' ' :: "reason:".data)))) = none := by
    show matchAddFrom (f ++ ' ' :: ("to:".data ++ (t ++ ' ' :: "reason:".data))) = none
    rw [matchAddFrom_shape f t "reason:".data hf ht hfs hts]
    rfl
  have hshow : matchShow ("add leave from:".data ++
      (f ++ ' ' :: ("to:".data ++ (t ++ ' ' :: "reason:".data)))) = none := rfl
  refine ⟨hadd, hshow, ?_, ?_⟩
  · show matchAddFrom (f ++ ' ' :: ("to:".data ++ (t ++ ' ' :: "reason:x".data)))
      = some (f, t, some ['x'])
    rw [matchAddFrom_shape f t "reason:x".data hf ht hfs hts]
    rfl
  · intro senderName senderId today store faults hc he
    exact runCommand_unrec _ senderName senderId today store faults hc he hadd hshow

/-- Witness for C10 on `add leave from:14Jan26 to:16Jan26 reason:`. -/
theorem c10_witness :
    matchAdd "add leave from:14Jan26 to:16Jan26 reason:".data = none
    ∧ runCommand "add leave from:14Jan26 to:16Jan26 reason:" "Ann" 7 739630 ⟨[], 1⟩
        ⟨true, true, none, none⟩
      = ⟨.contentReply 200 ("Sorry, I didn’t understand.\n\n" ++ usage), ⟨[], 1⟩,
          [.ensureSchema]⟩ := by
  have h := c10_empty_reason_unrecognized "14Jan26".data "16Jan26".data
    "add leave from:14Jan26 to:16Jan26 reason:".data
    "add leave from:14Jan26 to:16Jan26 reason:x".data
    (by decide) (by decide) (by decide) (by decide) rfl rfl
  exact ⟨h.1, h.2.2.2 "Ann" 7 739630 ⟨[], 1⟩ ⟨true, true, none, none⟩ rfl rfl⟩

/-- C2: `FindOverlapping` returns exactly the records whose inclusive
`[startDate, endDate]` interval satisfies
`NOT (endDate < windowStart OR startDate > windowEnd)`, ordered by
`startDate` ascending with ties broken by `userName` ascending. -/
theorem c2_findOverlapping_filter_sorted (rows : List LeaveRow) (ws we : Int) :
    (∀ r : LeaveRow, r ∈ findOverlapping rows ws we ↔
        r ∈ rows ∧ ¬(r.endDate < ws ∨ r.startDate > we))
    ∧ List.Perm (findOverlapping rows ws we) (rows.filter (overlaps ws we))
    ∧ List.Sorted rowLE (findOverlapping rows ws we) := by
  refine ⟨?_, List.perm_insertionSort _ _, List.sorted_insertionSort _ _⟩
  intro r
  unfold findOverlapping
  rw [List.mem_insertionSort, List.mem_filter]
  have hb : overlaps ws we r = true ↔ ¬(r.endDate < ws ∨ r.startDate > we) := by
    simp [overlaps, not_or]
  rw [hb]

example : parse_date "14Jan26" = .ok 739630 := rfl
example : parse_date "14Jan2026" = .ok 739630 := rfl
example : parse_date "2026-01-14" = .ok 739630 := rfl
example : parse_date "14/01/2026" = .ok 739630 := rfl
example : parse_date "14/01/26" = .ok 739630 := rfl
example : dateOrd 2026 1 14 = 739630 := by decide
example : parse_date "2026-13-40" =
    .error "Could not parse date '2026-13-40'. Try 14Jan26 or 2026-01-14." := rfl
example : parse_date "not-a-date" =
    .error "Could not parse date 'not-a-date'. Try 14Jan26 or 2026-01-14." := rfl
example : parse_date "2026-1-4" = .ok (dateOrd 2026 1 4) := rfl
example : isoFormat 739630 = "2026-01-14" := rfl
example : pyWeekday 739630 = 2 := by decide
example : week_range 739630 = (739628, 739634) := by decide
